import Mathlib

/-!
Verification of the book-review application's data model, access-control
rules and query layer, as a shallow embedding.

Sources embedded here:
- the SQL schema and row-level-security policies (profiles, books, reviews
  tables; CHECK and UNIQUE constraints; `auth.uid()`-based USING / WITH CHECK
  clauses);
- the page handlers: `handleSubmitReview`, `handleDeleteBook`,
  `handleEditReview`, `averageRating` and the star rendering in
  `BookDetailsPage`; `handleSubmit` in `BookFormPage`; `fetchBooks`
  (search / genre filter / order / range) in `BooksPage`.

Timestamps are modelled as naturals, ids as strings (uuids), ratings and
published years as integers (SQL `integer`).  A mutation returns
`Except Err DB`: on an error the returned state is the unchanged input
store (the `Except.error` carries no store, so the store is unchanged by
construction).  The store's order of rows models insertion order; the sort
in the listing is modelled as a stable sort by the requested key, mirroring
the single ORDER BY clause the code issues (no secondary key).
-/

namespace BookReview

/-- A row of the `profiles` table. -/
structure Profile where
  id : String
  name : String
  email : String
  created_at : Nat
deriving DecidableEq, Repr

/-- A row of the `books` table. -/
structure Book where
  id : String
  title : String
  author : String
  description : String
  genre : String
  published_year : Int
  added_by : String
  created_at : Nat
  updated_at : Nat
deriving DecidableEq, Repr

/-- A row of the `reviews` table. -/
structure Review where
  id : String
  book_id : String
  user_id : String
  rating : Int
  review_text : String
  created_at : Nat
  updated_at : Nat
deriving DecidableEq, Repr

/-- The persistent store: the three tables. -/
structure DB where
  profiles : List Profile
  books : List Book
  reviews : List Review
deriving DecidableEq, Repr

/-- Error taxonomy for rejected operations: `Unauthorized` for a row-level
security violation, `ConstraintViolation` for a CHECK / UNIQUE / foreign-key
violation, `NotFound` for an absent target row, `ValidationError` for
malformed input. -/
inductive Err where
  | Unauthorized
  | ConstraintViolation
  | NotFound
  | ValidationError
deriving DecidableEq, Repr

/-- Row lookup by primary key in `books`. -/
def lookupBook (db : DB) (bookId : String) : Option Book :=
  db.books.find? (fun b => b.id == bookId)

/-- Row lookup by primary key in `profiles`. -/
def lookupProfile (db : DB) (pid : String) : Option Profile :=
  db.profiles.find? (fun p => p.id == pid)

/-- Does a profile row with this id exist (foreign-key check for
`added_by` / `user_id` REFERENCES profiles(id))? -/
def profileExists (db : DB) (uid : String) : Bool :=
  db.profiles.any (fun p => p.id == uid)

/-- Does a book row with this id exist (primary-key / foreign-key check)? -/
def bookIdExists (db : DB) (bid : String) : Bool :=
  db.books.any (fun b => b.id == bid)

/-- Does a review row with this id exist (primary-key check)? -/
def reviewIdExists (db : DB) (rid : String) : Bool :=
  db.reviews.any (fun r => r.id == rid)

/-- Does this user already hold a review of this book
(the `UNIQUE(book_id, user_id)` constraint on `reviews`)? -/
def hasReviewBy (db : DB) (bid uid : String) : Bool :=
  db.reviews.any (fun r => r.book_id == bid && r.user_id == uid)

/-- The `CHECK (rating >= 1 AND rating <= 5)` constraint on `reviews`. -/
def ratingInRange (r : Int) : Bool :=
  1 ≤ r && r ≤ 5

/-- Creating a book: the `BookFormPage` insert branch sends
`{ ...formData, added_by: user.id }`; the RLS policy
"Authenticated users can create books" requires an authenticated actor with
`auth.uid() = added_by` (satisfied by construction, as the handler stamps
`added_by` with the actor's id); the schema requires `added_by` to
reference an existing profile and the id to be fresh.  The schema imposes
no range constraint on `published_year` beyond it being an integer. -/
def insertBook (db : DB) (actor : Option String)
    (title author description genre : String) (published_year : Int)
    (newId : String) (now : Nat) : Except Err DB :=
  match actor with
  | none => .error .Unauthorized
  | some uid =>
    if !profileExists db uid then .error .ConstraintViolation
    else if bookIdExists db newId then .error .ConstraintViolation
    else .ok { db with books := db.books ++
      [{ id := newId, title := title, author := author,
         description := description, genre := genre,
         published_year := published_year, added_by := uid,
         created_at := now, updated_at := now }] }

/-- Updating a book: the `BookFormPage` edit branch sends the form fields
(title, author, description, genre, published_year) for the row with the
given id; the RLS policy "Users can update own books" permits the write iff
`auth.uid() = added_by`; the `set_updated_at_books` trigger resets
`updated_at`. -/
def updateBook (db : DB) (actor : Option String) (bookId : String)
    (title author description genre : String) (published_year : Int)
    (now : Nat) : Except Err DB :=
  match actor with
  | none => .error .Unauthorized
  | some uid =>
    match lookupBook db bookId with
    | none => .error .NotFound
    | some b =>
      if b.added_by == uid then
        .ok { db with books := db.books.map (fun x =>
          if x.id == bookId then
            { x with title := title, author := author,
                     description := description, genre := genre,
                     published_year := published_year, updated_at := now }
          else x) }
      else .error .Unauthorized

/-- Deleting a book (`handleDeleteBook`): the RLS policy
"Users can delete own books" permits the delete iff `auth.uid() = added_by`;
`reviews.book_id REFERENCES books(id) ON DELETE CASCADE` removes the book's
reviews with it. -/
def deleteBook (db : DB) (actor : Option String) (bookId : String) :
    Except Err DB :=
  match actor with
  | none => .error .Unauthorized
  | some uid =>
    match lookupBook db bookId with
    | none => .error .NotFound
    | some b =>
      if b.added_by == uid then
        .ok { db with
          books := db.books.filter (fun x => x.id != bookId),
          reviews := db.reviews.filter (fun r => r.book_id != bookId) }
      else .error .Unauthorized

/-- Creating a review: the `handleSubmitReview` insert branch sends
`{ book_id, user_id: user.id, rating, review_text }`; the RLS policy
"Authenticated users can create reviews" requires an authenticated actor
with `auth.uid() = user_id` (satisfied by construction); the schema checks
the foreign keys, `CHECK (rating >= 1 AND rating <= 5)`, and
`UNIQUE(book_id, user_id)`. -/
def insertReview (db : DB) (actor : Option String) (bookId : String)
    (rating : Int) (review_text : String) (newId : String) (now : Nat) :
    Except Err DB :=
  match actor with
  | none => .error .Unauthorized
  | some uid =>
    if !bookIdExists db bookId then .error .ConstraintViolation
    else if !profileExists db uid then .error .ConstraintViolation
    else if !ratingInRange rating then .error .ConstraintViolation
    else if hasReviewBy db bookId uid then .error .ConstraintViolation
    else if reviewIdExists db newId then .error .ConstraintViolation
    else .ok { db with reviews := db.reviews ++
      [{ id := newId, book_id := bookId, user_id := uid, rating := rating,
         review_text := review_text, created_at := now, updated_at := now }] }

/-- Is this email already used by a different profile
(the `UNIQUE` constraint on `profiles.email`)? -/
def emailTakenByOther (db : DB) (pid email : String) : Bool :=
  db.profiles.any (fun q => q.id != pid && q.email == email)

/-- Updating a profile row under the RLS policy "Users can update own
profile": USING `auth.uid() = id` on the old row, WITH CHECK
`auth.uid() = id` on the new row.  The policy restricts no columns (the
migration declares no trigger and no column privilege on `profiles`), so
the submitted row replaces every field — name, email and creation
timestamp alike; only the new id is constrained by WITH CHECK;
`profiles.email` is UNIQUE. -/
def updateProfile (db : DB) (actor : Option String) (targetId : String)
    (newId newName newEmail : String) (newCreated : Nat) : Except Err DB :=
  match actor with
  | none => .error .Unauthorized
  | some uid =>
    match lookupProfile db targetId with
    | none => .error .NotFound
    | some p =>
      if p.id == uid then
        if newId == uid then
          if emailTakenByOther db p.id newEmail then .error .ConstraintViolation
          else .ok { db with profiles := db.profiles.map (fun q =>
            if q.id == targetId then
              { id := newId, name := newName, email := newEmail,
                created_at := newCreated }
            else q) }
        else .error .Unauthorized
      else .error .Unauthorized

/-- Lower-cased character list of a string (case folding used by ILIKE). -/
def charsLower (s : String) : List Char :=
  s.data.map Char.toLower

/-- Does the second list start with the first one? -/
def leadsWith : List Char → List Char → Bool
  | [], _ => true
  | _ :: _, [] => false
  | a :: as, b :: bs => a == b && leadsWith as bs

/-- Does the second list contain the first as a contiguous run? -/
def hasSub (needle : List Char) : List Char → Bool
  | [] => needle.isEmpty
  | hay@(_ :: tl) => leadsWith needle hay || hasSub needle tl

/-- Case-insensitive substring match: the semantics of the
`column.ilike.%q%` filter the code builds in `fetchBooks`. -/
def ilikeContains (hay pat : String) : Bool :=
  hasSub (charsLower pat) (charsLower hay)

/-- The text filter predicate of `fetchBooks`:
`title.ilike.%q%,author.ilike.%q%` joined with `or`. -/
def matchesSearch (q : String) (b : Book) : Bool :=
  ilikeContains b.title q || ilikeContains b.author q

/-- `fetchBooks` applies the text filter only when the query is non-empty
(`if (searchQuery)`). -/
def applySearch (q : String) (books : List Book) : List Book :=
  if q.isEmpty then books else books.filter (matchesSearch q)

/-- `fetchBooks` applies the genre filter (`eq('genre', g)`) only when a
genre is selected. -/
def applyGenre (g : String) (books : List Book) : List Book :=
  if g.isEmpty then books else books.filter (fun b => b.genre == g)

/-- The three sort keys of `fetchBooks` (`newest`, `oldest`, `year`). -/
inductive SortKey where
  | newest
  | oldest
  | year
deriving DecidableEq, Repr

/-- The comparison each ORDER BY clause induces: `created_at` descending
for `newest`, `created_at` ascending for `oldest`, `published_year`
descending for `year`.  The code issues no secondary ORDER BY clause. -/
def keyLE (k : SortKey) : Book → Book → Prop :=
  match k with
  | .newest => fun a b => b.created_at ≤ a.created_at
  | .oldest => fun a b => a.created_at ≤ b.created_at
  | .year => fun a b => b.published_year ≤ a.published_year

instance (k : SortKey) (a b : Book) : Decidable (keyLE k a b) :=
  match k with
  | .newest => inferInstanceAs (Decidable (_ ≤ _))
  | .oldest => inferInstanceAs (Decidable (_ ≤ _))
  | .year => inferInstanceAs (Decidable (_ ≤ _))

/-- The ordering step of the listing: a stable sort by the single
requested key (the code's one ORDER BY clause; ties keep their incoming
order, no id tiebreak is issued). -/
def sortBooks (k : SortKey) (books : List Book) : List Book :=
  List.insertionSort (keyLE k) books

/-- `const BOOKS_PER_PAGE = 5`. -/
def BOOKS_PER_PAGE : Nat := 5

/-- The listing operation of `fetchBooks`: filter by text query and genre,
order by the sort key, slice rows `(page-1)*5 .. (page-1)*5 + 4`
(`range(from, to)` with `from = (currentPage - 1) * BOOKS_PER_PAGE`,
`to = from + BOOKS_PER_PAGE - 1`), and return the exact count of matching
rows (`count: 'exact'`). -/
def listBooks (db : DB) (q g : String) (k : SortKey) (page : Nat) :
    List Book × Nat :=
  let filtered := applyGenre g (applySearch q db.books)
  let sorted := sortBooks k filtered
  let start := (page - 1) * BOOKS_PER_PAGE
  ((sorted.drop start).take BOOKS_PER_PAGE, filtered.length)

/-- `averageRating` in `BookDetailsPage`:
`reviews.length > 0 ? reviews.reduce((sum, r) => sum + r.rating, 0) / reviews.length : 0`. -/
def averageRating (reviews : List Review) : ℚ :=
  if reviews.length > 0 then
    reviews.foldl (fun sum r => sum + (r.rating : ℚ)) 0 / (reviews.length : ℚ)
  else 0

/-- Star `i` (0-based) of the book header is filled iff
`i < Math.round(averageRating)`. -/
def starFilled (avg : ℚ) (i : Nat) : Bool :=
  (i : ℤ) < round avg

/-- Number of filled stars among the five rendered
(`[...Array(5)].map((_, i) => ...)`). -/
def filledStars (avg : ℚ) : Nat :=
  (List.range 5).countP (starFilled avg)

/-- `reviews.find((r) => r.user_id === user?.id)` in `BookDetailsPage`. -/
def userReview (user : Option String) (reviews : List Review) :
    Option Review :=
  reviews.find? (fun r =>
    match user with
    | none => false
    | some u => r.user_id == u)

/-- The render guard of the review form: `user && !userReview`. -/
def showReviewForm (user : Option String) (reviews : List Review) : Bool :=
  user.isSome && (userReview user reviews).isNone

/-- The component state `handleEditReview` manipulates. -/
structure ReviewFormState where
  rating : Int
  reviewText : String
  editingReview : Option String
deriving DecidableEq, Repr

/-- `handleEditReview`: set `editingReview` to the review's id and load its
rating and text into the form state. -/
def handleEditReview (rv : Review) (s : ReviewFormState) : ReviewFormState :=
  { s with editingReview := some rv.id, rating := rv.rating,
           reviewText := rv.review_text }

/-- The `published_year` input of `BookFormPage` carries
`min="1000" max={new Date().getFullYear()}`: the interface-level
constraint on the year. -/
def yearInputValid (currentYear y : Int) : Bool :=
  1000 ≤ y && y ≤ currentYear

/-! Concrete rows and stores used by the witnesses and counterexamples. -/

/-- A concrete profile row. -/
def pAda : Profile :=
  { id := "u1", name := "Ada", email := "ada@x.com", created_at := 0 }

/-- A second concrete profile row. -/
def pBen : Profile :=
  { id := "u2", name := "Ben", email := "ben@x.com", created_at := 1 }

/-- A concrete book row. -/
def bHobbit : Book :=
  { id := "b1", title := "The Hobbit", author := "J.R.R. Tolkien",
    description := "d", genre := "Fantasy", published_year := 1937,
    added_by := "u1", created_at := 10, updated_at := 10 }

/-- A second concrete book row. -/
def bDune : Book :=
  { id := "b2", title := "Dune", author := "Frank Herbert",
    description := "d2", genre := "Science Fiction", published_year := 1965,
    added_by := "u2", created_at := 11, updated_at := 11 }

/-- A concrete review row: Ada's review of `bHobbit`. -/
def rvAda : Review :=
  { id := "r1", book_id := "b1", user_id := "u1", rating := 5,
    review_text := "great", created_at := 20, updated_at := 20 }

/-- A store with one profile and one book and no reviews. -/
def db1 : DB :=
  { profiles := [pAda], books := [bHobbit], reviews := [] }

/-- A store with two profiles, two books and Ada's review of `bHobbit`. -/
def db2 : DB :=
  { profiles := [pAda, pBen], books := [bHobbit, bDune], reviews := [rvAda] }

/-- A book row by index, used to build a twelve-book store. -/
def mkBook (n : Nat) : Book :=
  { id := toString n, title := "T", author := "A", description := "D",
    genre := "G", published_year := 2000, added_by := "u1",
    created_at := n, updated_at := n }

/-- A store with twelve books. -/
def db12 : DB :=
  { profiles := [pAda], books := (List.range 12).map mkBook, reviews := [] }

/-- Three concrete reviews of `bHobbit` with ratings 5, 3 and 4. -/
def rvs534 : List Review :=
  [{ id := "r1", book_id := "b1", user_id := "u1", rating := 5,
     review_text := "a", created_at := 20, updated_at := 20 },
   { id := "r2", book_id := "b1", user_id := "u2", rating := 3,
     review_text := "b", created_at := 21, updated_at := 21 },
   { id := "r3", book_id := "b1", user_id := "u3", rating := 4,
     review_text := "c", created_at := 22, updated_at := 22 }]

/-- Two book rows with the same creation timestamp whose ids are not in
ascending order, exercising tie handling in the listing's sort. -/
def tieZ : Book :=
  { id := "z", title := "Z", author := "AZ", description := "dz",
    genre := "G", published_year := 1990, added_by := "u1",
    created_at := 100, updated_at := 100 }

/-- The tied partner row of `tieZ`, with the smaller id. -/
def tieA : Book :=
  { id := "a", title := "A", author := "AA", description := "da",
    genre := "G", published_year := 1990, added_by := "u1",
    created_at := 100, updated_at := 100 }

/-- The initial review-form component state (`useState(5)`, empty text,
no review being edited). -/
def s0 : ReviewFormState :=
  { rating := 5, reviewText := "", editingReview := none }

/-! Shared helper lemmas. -/

/-- Row lookup by a key that is unique across the table finds exactly the
row of the key: `find?` returns the row itself. -/
theorem find_key_eq_some {α β : Type} [DecidableEq β] (key : α → β)
    {l : List α} {b : α} (hnd : (l.map key).Nodup) (hb : b ∈ l) :
    l.find? (fun x => key x == key b) = some b := by
  induction l with
  | nil => cases hb
  | cons h t ih =>
    rw [List.map_cons, List.nodup_cons] at hnd
    rcases List.mem_cons.mp hb with rfl | hbt
    · simp [List.find?_cons]
    · have hne : (key h == key b) = false :=
        beq_eq_false_iff_ne.mpr fun he =>
          hnd.1 (he ▸ List.mem_map_of_mem key hbt)
      rw [List.find?_cons, hne]
      exact ih hnd.2 hbt

/-- `lookupBook` on a store with distinct book ids finds the given row. -/
theorem lookupBook_eq_some {db : DB} {B : Book}
    (hnd : (db.books.map (fun b => b.id)).Nodup) (hB : B ∈ db.books) :
    lookupBook db B.id = some B := by
  unfold lookupBook
  exact find_key_eq_some (fun b => b.id) hnd hB

/-- `lookupProfile` on a store with distinct profile ids finds the given
row. -/
theorem lookupProfile_eq_some {db : DB} {P : Profile}
    (hnd : (db.profiles.map (fun p => p.id)).Nodup) (hP : P ∈ db.profiles) :
    lookupProfile db P.id = some P := by
  unfold lookupProfile
  exact find_key_eq_some (fun p => p.id) hnd hP

/-- Folding `(sum, r) => sum + r.rating` over the reviews, from any
accumulator, adds the sum of the ratings. -/
theorem foldl_add_ratings (reviews : List Review) :
    ∀ a : ℚ, reviews.foldl (fun sum r => sum + (r.rating : ℚ)) a
      = a + (reviews.map (fun r => (r.rating : ℚ))).sum := by
  induction reviews with
  | nil => intro a; simp
  | cons h t ih => intro a; simp [List.foldl_cons, ih, add_assoc]

/-- On a non-empty review list, `averageRating` is the exact arithmetic
mean of the ratings. -/
theorem averageRating_eq_mean (reviews : List Review) (h : reviews ≠ []) :
    averageRating reviews
      = (reviews.map (fun r => (r.rating : ℚ))).sum
        / (reviews.length : ℚ) := by
  unfold averageRating
  rw [if_pos (List.length_pos.mpr h), foldl_add_ratings, zero_add]

/-- With every rating in `[1,5]`, the average rating lies in `[0,5]`. -/
theorem averageRating_range (reviews : List Review)
    (hb : ∀ rv ∈ reviews, 1 ≤ rv.rating ∧ rv.rating ≤ 5) :
    0 ≤ averageRating reviews ∧ averageRating reviews ≤ 5 := by
  by_cases h : reviews = []
  · subst h
    simp [averageRating]
  · rw [averageRating_eq_mean reviews h]
    have hlen : 0 < (reviews.length : ℚ) := by
      have := List.length_pos.mpr h
      exact_mod_cast this
    have hS0 : 0 ≤ (reviews.map (fun r => (r.rating : ℚ))).sum := by
      apply List.sum_nonneg
      intro x hx
      rcases List.mem_map.mp hx with ⟨rv, hrv, rfl⟩
      have := (hb rv hrv).1
      have : (1 : ℚ) ≤ (rv.rating : ℚ) := by exact_mod_cast this
      linarith
    have hS5 : (reviews.map (fun r => (r.rating : ℚ))).sum
        ≤ (reviews.length : ℚ) * 5 := by
      have := List.sum_le_card_nsmul
        (reviews.map (fun r => (r.rating : ℚ))) 5 ?_
      · rw [List.length_map, nsmul_eq_mul] at this
        exact this
      · intro x hx
        rcases List.mem_map.mp hx with ⟨rv, hrv, rfl⟩
        exact_mod_cast (hb rv hrv).2
    constructor
    · exact div_nonneg hS0 (le_of_lt hlen)
    · rw [div_le_iff₀ hlen]
      linarith

/-- A rational in `[0,5]` rounds to an integer in `[0,5]`. -/
theorem round_range_of_le {avg : ℚ} (h0 : 0 ≤ avg) (h5 : avg ≤ 5) :
    0 ≤ round avg ∧ round avg ≤ 5 := by
  rw [round_eq]
  constructor
  · apply Int.floor_nonneg.mpr
    linarith
  · have hlt : avg + 1 / 2 < ((6 : ℤ) : ℚ) := by push_cast; linarith
    have := Int.floor_lt.mpr hlt
    omega

/-- For a rounded value `k ≤ 5`, exactly `k` of the five rendered stars
are filled. -/
theorem filledStars_eq_round (avg : ℚ) (k : Nat)
    (hk : round avg = (k : ℤ)) (hk5 : k ≤ 5) :
    filledStars avg = k := by
  have hfun : starFilled avg = fun i : Nat => decide ((i : ℤ) < (k : ℤ)) := by
    funext i
    simp [starFilled, hk]
  unfold filledStars
  rw [hfun]
  interval_cases k <;> decide

/-! Claim theorems. -/

/-- C1: for every actor and every existing book, `update` and `delete`
succeed iff the actor's identity equals the book's `added_by` owner
reference; a non-owner (or anonymous) attempt fails with `Unauthorized`,
and since a failing operation returns the error without a new store, the
book is unchanged. -/
theorem C1_book_update_delete_owner_only
    (db : DB) (A : Option String) (B : Book)
    (t a d g : String) (y : Int) (now : Nat)
    (hnd : (db.books.map (fun b => b.id)).Nodup) (hB : B ∈ db.books) :
    ((updateBook db A B.id t a d g y now).isOk = true ↔ A = some B.added_by)
    ∧ ((deleteBook db A B.id).isOk = true ↔ A = some B.added_by)
    ∧ (A ≠ some B.added_by →
        updateBook db A B.id t a d g y now = Except.error Err.Unauthorized
        ∧ deleteBook db A B.id = Except.error Err.Unauthorized) := by
  have hfind : lookupBook db B.id = some B := lookupBook_eq_some hnd hB
  cases A with
  | none =>
    refine ⟨?_, ?_, fun _ => ⟨?_, ?_⟩⟩ <;>
      simp [updateBook, deleteBook, Except.isOk, Except.toBool]
  | some uid =>
    by_cases h : B.added_by = uid
    · subst h
      refine ⟨?_, ?_, fun hne => absurd rfl hne⟩ <;>
        simp [updateBook, deleteBook, hfind, Except.isOk, Except.toBool]
    · have hbeq : (B.added_by == uid) = false := beq_eq_false_iff_ne.mpr h
      have hne : uid ≠ B.added_by := fun he => h he.symm
      refine ⟨?_, ?_, fun _ => ⟨?_, ?_⟩⟩ <;>
        simp [updateBook, deleteBook, hfind, hbeq, Except.isOk,
          Except.toBool, hne]

/-- C1 witness: in the one-book store `db1`, the non-owner `u2` can
neither update nor delete Ada's book, and both failures are
`Unauthorized`. -/
theorem C1_book_update_delete_owner_only_witness :
    (((updateBook db1 (some "u2") bHobbit.id "t" "a" "d" "g" 1 99).isOk
        = true) ↔ some "u2" = some bHobbit.added_by)
    ∧ ((deleteBook db1 (some "u2") bHobbit.id).isOk = true
        ↔ some "u2" = some bHobbit.added_by)
    ∧ (some "u2" ≠ some bHobbit.added_by →
        updateBook db1 (some "u2") bHobbit.id "t" "a" "d" "g" 1 99
          = Except.error Err.Unauthorized
        ∧ deleteBook db1 (some "u2") bHobbit.id
          = Except.error Err.Unauthorized) :=
  C1_book_update_delete_owner_only db1 (some "u2") bHobbit "t" "a" "d" "g"
    1 99 (by decide) (by decide)

/-- C2: once a review by actor `A` for book `bid` exists, any further
create attempt by `A` for `bid` fails with `ConstraintViolation` (the
`UNIQUE(book_id, user_id)` constraint) and, the error carrying no new
store, leaves the store unchanged; a create by a distinct actor for the
same book succeeds whenever its own rule checks pass. -/
theorem C2_one_review_per_user_per_book
    (db : DB) (A bid : String) (r : Int) (txt nid : String) (now : Nat)
    (hexists : ∃ rv ∈ db.reviews, rv.book_id = bid ∧ rv.user_id = A) :
    insertReview db (some A) bid r txt nid now
      = Except.error Err.ConstraintViolation
    ∧ (∀ (A2 : String) (r2 : Int) (txt2 nid2 : String) (now2 : Nat),
        A2 ≠ A →
        bookIdExists db bid = true →
        profileExists db A2 = true →
        ratingInRange r2 = true →
        hasReviewBy db bid A2 = false →
        reviewIdExists db nid2 = false →
        (insertReview db (some A2) bid r2 txt2 nid2 now2).isOk = true) := by
  constructor
  · have hdup : hasReviewBy db bid A = true := by
      rcases hexists with ⟨rv, hrv, hbid, huid⟩
      exact List.any_eq_true.mpr ⟨rv, hrv, by simp [hbid, huid]⟩
    unfold insertReview
    by_cases hb : bookIdExists db bid
    · by_cases hp : profileExists db A
      · by_cases hr : ratingInRange r
        · simp [hb, hp, hr, hdup]
        · simp [hb, hp, hr]
      · simp [hb, hp]
    · simp [hb]
  · intro A2 r2 txt2 nid2 now2 _ hb hp hr hno hfree
    simp [insertReview, hb, hp, hr, hno, hfree, Except.isOk, Except.toBool]

/-- C2 witness: in `db2`, where Ada (`u1`) already reviewed `b1`, a second
create by `u1` for `b1` fails with `ConstraintViolation`, while Ben
(`u2`) successfully creates his review of `b1`. -/
theorem C2_one_review_per_user_per_book_witness :
    insertReview db2 (some "u1") "b1" 4 "again" "r9" 99
      = Except.error Err.ConstraintViolation
    ∧ (insertReview db2 (some "u2") "b1" 2 "meh" "r8" 99).isOk = true :=
  ⟨(C2_one_review_per_user_per_book db2 "u1" "b1" 4 "again" "r9" 99
      (by decide)).1,
   (C2_one_review_per_user_per_book db2 "u1" "b1" 4 "again" "r9" 99
      (by decide)).2 "u2" 2 "meh" "r8" 99 (by decide) (by decide)
      (by decide) (by decide) (by decide) (by decide)⟩

/-- C3: with the actor authenticated, its profile and the target book
present, no prior review by the actor for the book, and a fresh review id,
creating a review with rating `r` succeeds iff `1 ≤ r ≤ 5`; in
particular ratings 0 and 6 are rejected with `ConstraintViolation`
(the schema's CHECK constraint) and not stored. -/
theorem C3_rating_bounds
    (db : DB) (u bid txt nid : String) (now : Nat)
    (hbook : bookIdExists db bid = true)
    (hprof : profileExists db u = true)
    (hno : hasReviewBy db bid u = false)
    (hfresh : reviewIdExists db nid = false) :
    (∀ r : Int,
      (insertReview db (some u) bid r txt nid now).isOk = true
        ↔ (1 ≤ r ∧ r ≤ 5))
    ∧ insertReview db (some u) bid 0 txt nid now
        = Except.error Err.ConstraintViolation
    ∧ insertReview db (some u) bid 6 txt nid now
        = Except.error Err.ConstraintViolation := by
  have key : ∀ r : Int,
      (insertReview db (some u) bid r txt nid now).isOk = true
        ↔ (1 ≤ r ∧ r ≤ 5) := by
    intro r
    by_cases hr : ratingInRange r = true
    · have hr' : 1 ≤ r ∧ r ≤ 5 := by
        have := hr
        unfold ratingInRange at this
        simpa [Bool.and_eq_true, decide_eq_true_eq] using this
      simp [insertReview, hbook, hprof, hr, hno, hfresh, Except.isOk,
        Except.toBool, hr']
    · have hr' : ¬ (1 ≤ r ∧ r ≤ 5) := by
        intro hc
        apply hr
        unfold ratingInRange
        simp [Bool.and_eq_true, decide_eq_true_eq, hc.1, hc.2]
      have hrf : ratingInRange r = false := by
        simpa using hr
      simp [insertReview, hbook, hprof, hrf, Except.isOk, Except.toBool,
        hr']
  refine ⟨key, ?_, ?_⟩
  · have h0 : ratingInRange 0 = false := by decide
    simp [insertReview, hbook, hprof, h0]
  · have h6 : ratingInRange 6 = false := by decide
    simp [insertReview, hbook, hprof, h6]

/-- C3 witness: in `db1` (book `b1`, profile `u1`, no reviews), rating 3
is accepted while ratings 0 and 6 are rejected with
`ConstraintViolation`. -/
theorem C3_rating_bounds_witness :
    ((insertReview db1 (some "u1") "b1" 3 "t" "r7" 99).isOk = true
        ↔ (1 ≤ (3 : Int) ∧ (3 : Int) ≤ 5))
    ∧ insertReview db1 (some "u1") "b1" 0 "t" "r7" 99
        = Except.error Err.ConstraintViolation
    ∧ insertReview db1 (some "u1") "b1" 6 "t" "r7" 99
        = Except.error Err.ConstraintViolation :=
  ⟨(C3_rating_bounds db1 "u1" "b1" "t" "r7" 99 (by decide) (by decide)
      (by decide) (by decide)).1 3,
   (C3_rating_bounds db1 "u1" "b1" "t" "r7" 99 (by decide) (by decide)
      (by decide) (by decide)).2.1,
   (C3_rating_bounds db1 "u1" "b1" "t" "r7" 99 (by decide) (by decide)
      (by decide) (by decide)).2.2⟩

/-- C4: the derived average rating is 0 for a book with no reviews and
the exact arithmetic mean of the ratings otherwise (the underlying value
is an exact rational, not pre-rounded); for ratings `[5, 3, 4]` it equals
4; and the star rendering fills exactly `Math.round(average)` of the five
stars whenever the stored ratings respect the `[1,5]` bound. -/
theorem C4_average_rating (reviews : List Review) :
    (reviews = [] → averageRating reviews = 0)
    ∧ (reviews ≠ [] →
        averageRating reviews
          = (reviews.map (fun r => (r.rating : ℚ))).sum
            / (reviews.length : ℚ))
    ∧ (reviews.map (fun r => r.rating) = [5, 3, 4] →
        averageRating reviews = 4)
    ∧ ((∀ rv ∈ reviews, 1 ≤ rv.rating ∧ rv.rating ≤ 5) →
        filledStars (averageRating reviews)
          = (round (averageRating reviews)).toNat) := by
  refine ⟨?_, averageRating_eq_mean reviews, ?_, ?_⟩
  · intro h
    subst h
    simp [averageRating]
  · intro hmap
    have hne : reviews ≠ [] := by
      intro h
      rw [h] at hmap
      simp at hmap
    have hlen : reviews.length = 3 := by
      have := congrArg List.length hmap
      simpa using this
    have hsum : (reviews.map (fun r => (r.rating : ℚ))).sum = 12 := by
      have hcomp : reviews.map (fun r => (r.rating : ℚ))
          = (reviews.map (fun r => r.rating)).map (fun z : Int => (z : ℚ)) := by
        rw [List.map_map]
        rfl
      rw [hcomp, hmap]
      norm_num
    rw [averageRating_eq_mean reviews hne, hsum, hlen]
    norm_num
  · intro hb
    have hrange := averageRating_range reviews hb
    have hround := round_range_of_le hrange.1 hrange.2
    have hk : round (averageRating reviews)
        = ((round (averageRating reviews)).toNat : ℤ) :=
      (Int.toNat_of_nonneg hround.1).symm
    have hk5 : (round (averageRating reviews)).toNat ≤ 5 := by
      omega
    exact filledStars_eq_round _ _ hk hk5

/-- C4 witness: the empty review list averages to 0; the concrete reviews
with ratings `[5, 3, 4]` average to exactly 4 and render with
`Math.round(4) = 4` filled stars. -/
theorem C4_average_rating_witness :
    averageRating [] = 0
    ∧ averageRating rvs534 = 4
    ∧ filledStars (averageRating rvs534)
        = (round (averageRating rvs534)).toNat :=
  ⟨(C4_average_rating []).1 rfl,
   (C4_average_rating rvs534).2.2.1 (by decide),
   (C4_average_rating rvs534).2.2.2 (by decide)⟩

/-- C5: for any page `p ≥ 1` the listing returns the rows at positions
`(p-1)*5 .. (p-1)*5 + 4` of the sorted filtered sequence together with
the total matching count; the slice length is `min 5 (n - (p-1)*5)`, so
with `n = 12` page 3 holds exactly 2 rows and page 4 is the empty slice
(no error), the count staying 12 on both. -/
theorem C5_pagination (db : DB) (q g : String) (k : SortKey) (p : Nat)
    (hp : 1 ≤ p) :
    ((listBooks db q g k p).2
        = (applyGenre g (applySearch q db.books)).length)
    ∧ (∀ i : Nat,
        ((listBooks db q g k p).1)[i]?
          = if i < 5 then
              (sortBooks k (applyGenre g (applySearch q db.books)))[(p - 1) * 5 + i]?
            else none)
    ∧ ((listBooks db q g k p).1.length
        = min 5 ((applyGenre g (applySearch q db.books)).length - (p - 1) * 5))
    ∧ ((applyGenre g (applySearch q db.books)).length = 12 →
        ((listBooks db q g k 3).1.length = 2
          ∧ (listBooks db q g k 3).2 = 12)
        ∧ ((listBooks db q g k 4).1 = []
          ∧ (listBooks db q g k 4).2 = 12)) := by
  have hSlen : (sortBooks k (applyGenre g (applySearch q db.books))).length
      = (applyGenre g (applySearch q db.books)).length :=
    (List.perm_insertionSort _ _).length_eq
  have hslice : ∀ p2 : Nat, (listBooks db q g k p2).1
      = ((sortBooks k (applyGenre g (applySearch q db.books))).drop
          ((p2 - 1) * 5)).take 5 := by
    intro p2
    rfl
  have hcount : ∀ p2 : Nat, (listBooks db q g k p2).2
      = (applyGenre g (applySearch q db.books)).length := by
    intro p2
    rfl
  have hlen : ∀ p2 : Nat, (listBooks db q g k p2).1.length
      = min 5 ((applyGenre g (applySearch q db.books)).length
          - (p2 - 1) * 5) := by
    intro p2
    rw [hslice p2, List.length_take, List.length_drop, hSlen]
  refine ⟨hcount p, ?_, hlen p, ?_⟩
  · intro i
    rw [hslice p, List.getElem?_take]
    by_cases hi : i < 5
    · rw [if_pos hi, if_pos hi, List.getElem?_drop]
    · rw [if_neg hi, if_neg hi]
  · intro h12
    refine ⟨⟨?_, ?_⟩, ?_, ?_⟩
    · rw [hlen 3, h12]
      decide
    · rw [hcount 3, h12]
    · apply List.eq_nil_of_length_eq_zero
      rw [hlen 4, h12]
      decide
    · rw [hcount 4, h12]

/-- C5 witness: on the twelve-book store with no filters, page 3 of the
newest-first listing holds exactly two rows, page 4 is empty, and the
count stays 12 on both pages. -/
theorem C5_pagination_witness :
    (listBooks db12 "" "" SortKey.newest 3).1.length = 2
    ∧ (listBooks db12 "" "" SortKey.newest 3).2 = 12
    ∧ (listBooks db12 "" "" SortKey.newest 4).1 = []
    ∧ (listBooks db12 "" "" SortKey.newest 4).2 = 12 :=
  ⟨((C5_pagination db12 "" "" SortKey.newest 3 (by decide)).2.2.2
      (by decide)).1.1,
   ((C5_pagination db12 "" "" SortKey.newest 3 (by decide)).2.2.2
      (by decide)).1.2,
   ((C5_pagination db12 "" "" SortKey.newest 3 (by decide)).2.2.2
      (by decide)).2.1,
   ((C5_pagination db12 "" "" SortKey.newest 3 (by decide)).2.2.2
      (by decide)).2.2⟩

/-- C6: for a non-empty query the listing's text filter keeps exactly the
books whose title or author contains the query as a case-insensitive
substring; concretely "tolk" matches the book authored "J.R.R. Tolkien"
(a mid-string, non-prefix match on the author field) and does not match
the book titled "Dune". -/
theorem C6_text_filter (q : String) (hq : q ≠ "") (books : List Book)
    (b : Book) :
    (b ∈ applySearch q books
      ↔ b ∈ books
        ∧ (ilikeContains b.title q || ilikeContains b.author q) = true)
    ∧ matchesSearch "tolk" bHobbit = true
    ∧ matchesSearch "tolk" bDune = false := by
  refine ⟨?_, by decide, by decide⟩
  have hqe : q.isEmpty = false := by
    cases h : q.isEmpty with
    | false => rfl
    | true => exact absurd ((String.isEmpty_iff q).mp h) hq
  simp [applySearch, hqe, List.mem_filter, matchesSearch]

/-- C6 witness: with query "tolk" over the two-book list, the Tolkien
book passes the filter characterization and the concrete matches hold. -/
theorem C6_text_filter_witness :
    (bHobbit ∈ applySearch "tolk" [bHobbit, bDune]
      ↔ bHobbit ∈ [bHobbit, bDune]
        ∧ (ilikeContains bHobbit.title "tolk"
            || ilikeContains bHobbit.author "tolk") = true)
    ∧ matchesSearch "tolk" bHobbit = true
    ∧ matchesSearch "tolk" bDune = false :=
  C6_text_filter "tolk" (by decide) [bHobbit, bDune] bHobbit

/-- C7 counterexample: the code issues a single ORDER BY clause with no
id tiebreak, so two books tied on `created_at` are not reordered by id:
sorting `[tieZ, tieA]` (ids "z", "a", equal timestamps) newest-first
keeps "z" before "a", not the id-ascending order the claim asserts. -/
theorem C7_counterexample :
    tieZ.created_at = tieA.created_at
    ∧ tieA.id.data = ['a'] ∧ tieZ.id.data = ['z'] ∧ 'a' < 'z'
    ∧ sortBooks SortKey.newest [tieZ, tieA] = [tieZ, tieA]
    ∧ sortBooks SortKey.newest [tieZ, tieA] ≠ [tieA, tieZ] :=
  ⟨rfl, rfl, rfl, by decide, by decide, by decide⟩

/-- The key comparison of each sort option is total. -/
theorem keyLE_total (k : SortKey) :
    ∀ a b : Book, keyLE k a b ∨ keyLE k b a := by
  intro a b
  cases k <;> dsimp [keyLE] <;> omega

/-- The key comparison of each sort option is transitive. -/
theorem keyLE_trans (k : SortKey) :
    ∀ a b c : Book, keyLE k a b → keyLE k b c → keyLE k a c := by
  intro a b c
  cases k <;> dsimp [keyLE] <;> omega

/-- C7 amended: the listing's order is by the requested key only —
creation timestamp descending for newest, ascending for oldest, published
year descending for by-year — and the output is a permutation of the
filtered input sorted by that key; the code issues no id tiebreak, so
equal-key ties stay in their incoming (unspecified) order. -/
theorem C7_sort_key_only (k : SortKey) (l : List Book) :
    List.Sorted (keyLE k) (sortBooks k l) ∧ (sortBooks k l).Perm l := by
  constructor
  · haveI : IsTotal Book (keyLE k) := ⟨keyLE_total k⟩
    haveI : IsTrans Book (keyLE k) := ⟨fun a b c => keyLE_trans k a b c⟩
    exact List.sorted_insertionSort _ _
  · exact List.perm_insertionSort _ _

/-- C8 counterexample: the RLS policy "Users can update own profile" pins
only the row identity (`auth.uid() = id`), not which columns change: the
owner `u1` successfully updates their own email — and even the creation
timestamp — so a permitted update is not limited to the display-name
field. -/
theorem C8_counterexample :
    updateProfile db1 (some "u1") "u1" "u1" "Ada" "new@x.com" 77
      = Except.ok
          { profiles := [{ id := "u1", name := "Ada", email := "new@x.com",
                           created_at := 77 }],
            books := [bHobbit], reviews := [] }
    ∧ pAda.email ≠ "new@x.com"
    ∧ pAda.created_at ≠ 77 :=
  ⟨rfl, by decide, by decide⟩

/-- C8 amended: a profile update is permitted iff the acting identity
equals the target profile's id and the submitted row keeps that id (the
policy's USING and WITH CHECK clauses), so the row id cannot change under
a permitted update; but the policy restricts no other column: a permitted
update writes the name, the email and the creation timestamp as submitted
(subject only to email uniqueness), not the display-name field alone. -/
theorem C8_profile_update_policy
    (db : DB) (actor : Option String) (tid newId nm ne : String)
    (nc : Nat)
    (hnd : (db.profiles.map (fun p => p.id)).Nodup)
    (P : Profile) (hP : P ∈ db.profiles) (hPid : P.id = tid) :
    ((updateProfile db actor tid newId nm ne nc).isOk = true →
        actor = some tid ∧ newId = tid)
    ∧ (actor = some tid → newId = tid →
        emailTakenByOther db tid ne = false →
        updateProfile db actor tid newId nm ne nc
          = Except.ok { db with profiles := db.profiles.map (fun qq =>
              if qq.id == tid then
                { id := tid, name := nm, email := ne, created_at := nc }
              else qq) })
    ∧ (actor ≠ some tid →
        updateProfile db actor tid newId nm ne nc
          = Except.error Err.Unauthorized) := by
  have hfind : lookupProfile db tid = some P := by
    rw [← hPid]
    exact lookupProfile_eq_some hnd hP
  cases actor with
  | none =>
    refine ⟨?_, ?_, fun _ => rfl⟩
    · intro h
      simp [updateProfile, Except.isOk, Except.toBool] at h
    · intro h
      exact absurd h (by simp)
  | some uid =>
    by_cases hu : tid = uid
    · subst hu
      by_cases hn : newId = tid
      · have hn2 : tid = newId := hn.symm
        subst hn2
        by_cases he : emailTakenByOther db tid ne = true
        · have hres : updateProfile db (some tid) tid tid nm ne nc
              = Except.error Err.ConstraintViolation := by
            simp [updateProfile, hfind, hPid, he]
          refine ⟨?_, ?_, fun hne => absurd rfl hne⟩
          · intro h
            rw [hres] at h
            simp [Except.isOk, Except.toBool] at h
          · intro _ _ hef
            rw [hef] at he
            cases he
        · have hef : emailTakenByOther db tid ne = false := by
            simpa using he
          refine ⟨fun _ => ⟨rfl, rfl⟩, ?_, fun hne => absurd rfl hne⟩
          intro _ _ _
          simp [updateProfile, hfind, hPid, hef]
      · have hres : updateProfile db (some tid) tid newId nm ne nc
              = Except.error Err.Unauthorized := by
          simp [updateProfile, hfind, hPid, hn]
        refine ⟨?_, ?_, fun hne => absurd rfl hne⟩
        · intro h
          rw [hres] at h
          simp [Except.isOk, Except.toBool] at h
        · intro _ hn2
          exact absurd hn2 hn
    · have hne2 : some uid ≠ some tid := fun h =>
        hu (Option.some.inj h).symm
      have hres : updateProfile db (some uid) tid newId nm ne nc
          = Except.error Err.Unauthorized := by
        have hc : (P.id == uid) = false :=
          beq_eq_false_iff_ne.mpr (hPid ▸ hu)
        simp [updateProfile, hfind, hc]
      refine ⟨?_, fun ha => absurd ha hne2, fun _ => hres⟩
      intro h
      rw [hres] at h
      simp [Except.isOk, Except.toBool] at h

/-- C8 witness: in `db1` the owner `u1` updates their profile (the result
carries the submitted name, email and creation timestamp, same id),
while the other identity `u2` is refused with `Unauthorized`. -/
theorem C8_profile_update_policy_witness :
    updateProfile db1 (some "u1") "u1" "u1" "A2" "b@x.com" 5
      = Except.ok
          { profiles := [{ id := "u1", name := "A2", email := "b@x.com",
                           created_at := 5 }],
            books := [bHobbit], reviews := [] }
    ∧ updateProfile db1 (some "u2") "u1" "u1" "A2" "b@x.com" 5
      = Except.error Err.Unauthorized :=
  ⟨(C8_profile_update_policy db1 (some "u1") "u1" "u1" "A2" "b@x.com" 5
      (by decide) pAda (by decide) rfl).2.1 rfl rfl (by decide),
   (C8_profile_update_policy db1 (some "u2") "u1" "u1" "A2" "b@x.com" 5
      (by decide) pAda (by decide) rfl).2.2 (by decide)⟩

/-- C9: the review form is rendered iff an actor is authenticated and has
no existing review of the displayed book (`user && !userReview`);
`handleEditReview` sets the editing state to the review's id, but for a
user whose review exists the guard still evaluates to false, so no form
is displayed. -/
theorem C9_review_form_guard
    (user : Option String) (reviews : List Review) (s : ReviewFormState)
    (rv : Review) :
    (showReviewForm user reviews = true
      ↔ user.isSome = true ∧ userReview user reviews = none)
    ∧ (handleEditReview rv s).editingReview = some rv.id
    ∧ (∀ u : String, user = some u → rv.user_id = u → rv ∈ reviews →
        showReviewForm user reviews = false) := by
  refine ⟨?_, rfl, ?_⟩
  · unfold showReviewForm
    rw [Bool.and_eq_true, Option.isNone_iff_eq_none]
  · intro u hu hid hmem
    subst hid
    subst hu
    have hsome : (userReview (some rv.user_id) reviews).isSome = true := by
      apply List.find?_isSome.mpr
      exact ⟨rv, hmem, by simp [userReview]⟩
    rcases h : userReview (some rv.user_id) reviews with _ | x
    · rw [h] at hsome
      simp at hsome
    · unfold showReviewForm
      rw [h]
      simp

/-- C9 witness: with Ada authenticated and her review present, activating
edit on her review sets the editing state to its id while the form guard
stays false. -/
theorem C9_review_form_guard_witness :
    (showReviewForm (some "u1") [rvAda] = true
      ↔ (some "u1" : Option String).isSome = true
        ∧ userReview (some "u1") [rvAda] = none)
    ∧ (handleEditReview rvAda s0).editingReview = some rvAda.id
    ∧ showReviewForm (some "u1") [rvAda] = false :=
  ⟨(C9_review_form_guard (some "u1") [rvAda] s0 rvAda).1,
   (C9_review_form_guard (some "u1") [rvAda] s0 rvAda).2.1,
   (C9_review_form_guard (some "u1") [rvAda] s0 rvAda).2.2 "u1" rfl rfl
     (by decide)⟩

/-- C10: the create/edit form constrains the published year to
`[1000, currentYear]` at the interface level only; the mutation path and
the schema accept any integer year: with the actor's profile present and
a fresh id, `insertBook` succeeds for every integer `y` and stores it
unchanged. -/
theorem C10_year_bounds_interface_only
    (db : DB) (uid : String) (y cy : Int) (t a d g nid : String)
    (now : Nat)
    (hprof : profileExists db uid = true)
    (hfresh : bookIdExists db nid = false) :
    (yearInputValid cy y = true ↔ 1000 ≤ y ∧ y ≤ cy)
    ∧ (insertBook db (some uid) t a d g y nid now).isOk = true
    ∧ insertBook db (some uid) t a d g y nid now
        = Except.ok { db with books := db.books ++
            [{ id := nid, title := t, author := a, description := d,
               genre := g, published_year := y, added_by := uid,
               created_at := now, updated_at := now }] } := by
  refine ⟨?_, ?_, ?_⟩
  · unfold yearInputValid
    simp [Bool.and_eq_true, decide_eq_true_eq]
  · simp [insertBook, hprof, hfresh, Except.isOk, Except.toBool]
  · simp [insertBook, hprof, hfresh]

/-- C10 witness: the year 3024 fails the interface bound for current year
2026, yet the insert path accepts it. -/
theorem C10_year_bounds_interface_only_witness :
    (yearInputValid 2026 3024 = true
      ↔ 1000 ≤ (3024 : Int) ∧ (3024 : Int) ≤ 2026)
    ∧ (insertBook db1 (some "u1") "T" "A" "D" "G" 3024 "b9" 99).isOk
        = true :=
  ⟨(C10_year_bounds_interface_only db1 "u1" 3024 2026 "T" "A" "D" "G" "b9"
      99 (by decide) (by decide)).1,
   (C10_year_bounds_interface_only db1 "u1" 3024 2026 "T" "A" "D" "G" "b9"
      99 (by decide) (by decide)).2.1⟩

end BookReview
